import Mathlib

/-!
Verification of the Cyber-Mercenary agent against its specification.

The development shallowly embeds the Python sources:

* `agent/src/services/signer.py` — the `SignatureManager` class
  (`sign_message`, `verify_signature`);
* `agent/src/services/database.py` — the `DatabaseService` class
  (schema creation, `save_scan`, `save_bounty`, `claim_bounty`,
  `get_stats`, `_increment_stat`, `increment_vulnerabilities`);
* `agent/src/services/scanner.py` — `ContractScanner.get_contract_code`;
* `agent/src/services/minimax.py` — the response-parsing part of
  `MiniMaxClient.analyze_contract`;
* `agent/src/jobs/scanner_job.py` — the `ScannerJob.run` loop and
  `ScannerJob.stop`.

Fallible Python code is embedded in an exception monad `PyResult`;
external library primitives with real cryptographic content (ECDSA
signing and recovery, keccak) are abstracted as a record of pure
functions `EthLib`, while the library behaviours the sources actually
exercise (EIP-191 encoding, typed-data validation, Python name
resolution) are modelled concretely.
-/

/-- Python exception values relevant to the embedded code.  Every
constructor models an exception class deriving from `Exception`, so a
bare `except Exception` handler catches all of them. -/
inductive PyExc where
  | nameError (name : String)
  | valueError (msg : String)
  | validationError (missingKey : String)
  | keyError (key : String)
  | indexError
  | typeError (msg : String)
  | attributeError (attr : String)
  | jsonDecodeError (msg : String)
  | httpStatusError (code : Nat)
  | web3Error (msg : String)
  deriving DecidableEq, Repr

/-- Result of a piece of Python code: a value, or a raised exception. -/
abbrev PyResult (α : Type) := Except PyExc α

/-! ## Signer (`agent/src/services/signer.py`) -/

/-- An EIP-191 `SignableMessage` as produced by
`eth_account.messages.encode_defunct` (version byte, header bytes,
body bytes, each modelled as a string). -/
structure SignableMessage where
  version : String
  header : String
  body : String
  deriving DecidableEq, Repr

/-- Models `eth_account.messages.encode_defunct(text=message)`: version
byte `E`, header `thereum Signed Message:\n` followed by the decimal
byte length of the message, body the message itself. -/
def encode_defunct (text : String) : SignableMessage :=
  { version := "E"
    header := "thereum Signed Message:\n" ++ toString text.utf8ByteSize
    body := text }

/-- The pure external primitives of `eth_account` / `eth_hash` used by
`SignatureManager`.  `ecdsaSign` is RFC-6979 deterministic signing, a
pure function of key and encoded message; `ecdsaRecover` recovers the
signer address from an encoded message and a signature, raising on a
malformed signature; `keccakText` and `addressOfKey` are likewise
pure. -/
structure EthLib where
  addressOfKey : String → String
  ecdsaSign : String → SignableMessage → String
  ecdsaRecover : SignableMessage → String → PyResult String
  keccakText : String → String

/-- Configuration slice used by `SignatureManager`
(`config.blockchain.private_key`). -/
structure SignerConfig where
  private_key : Option String
  deriving DecidableEq, Repr

/-- The dataclass `SignedMessage` of `signer.py`. -/
structure SignedMessage where
  message : String
  signature : String
  hash : String
  signer_address : String
  deriving DecidableEq, Repr

/-- Embeds `SignatureManager._get_account`: raises `ValueError` when the
private key is unset or empty (`if not self.config.blockchain.private_key`
treats the empty string as falsy), otherwise yields the account, which we
represent by its key. -/
def get_account (cfg : SignerConfig) : PyResult String :=
  match cfg.private_key with
  | none => .error (.valueError "Private key not configured")
  | some k =>
      if k = "" then .error (.valueError "Private key not configured")
      else .ok k

/-- The top-level keys of the dict literal that `sign_message` passes to
`encode_structured_data`, namely
`{"primaryType": "Message", "types": {"EIP712Domain": []}}`. -/
def signMessageTypedDataKeys : List String := ["primaryType", "types"]

/-- Models `eth_account.messages.encode_structured_data` applied to a
dict: the library first validates that the typed data carries the four
top-level keys `types`, `primaryType`, `domain` and `message`, raising a
validation error naming the first missing one.  The success branch is
never reached by the call site in `sign_message` (its argument lacks
`domain` and `message`), so the encoded value there is a placeholder. -/
def encode_structured_data (keys : List String) : PyResult SignableMessage :=
  if "types" ∉ keys then .error (.validationError "types")
  else if "primaryType" ∉ keys then .error (.validationError "primaryType")
  else if "domain" ∉ keys then .error (.validationError "domain")
  else if "message" ∉ keys then .error (.validationError "message")
  else .ok { version := "1", header := "", body := "" }

/-- Embeds `SignatureManager.sign_message`.  The body first obtains the
account, then evaluates
`encode_structured_data({"primaryType": "Message", "types": {"EIP712Domain": []}})`,
then rebinds `encoded = encode_defunct(text=message)`, signs, and builds
the `SignedMessage`.  The `except Exception` clause logs and re-raises
(`raise`), so the method-level outcome equals the try-block outcome. -/
def sign_message (lib : EthLib) (cfg : SignerConfig) (message : String) :
    PyResult SignedMessage := do
  let key ← get_account cfg
  let _encoded ← encode_structured_data signMessageTypedDataKeys
  let encoded := encode_defunct message
  let sig := lib.ecdsaSign key encoded
  pure { message := message
         signature := sig
         hash := lib.keccakText message
         signer_address := lib.addressOfKey key }

/-- Names bound at module level of `signer.py`: its imports
(`logging`, `Optional`, `dataclass`, `Account`, `encode_structured_data`,
`keccak`, `Settings`) and its top-level definitions.  Note that
`encode_defunct` is absent: it is imported only inside the body of
`sign_message`, which binds it in that function's local scope alone. -/
def signerModuleScope : List String :=
  ["logging", "Optional", "dataclass", "Account", "encode_structured_data",
   "keccak", "Settings", "logger", "SignedMessage", "SignatureManager"]

/-- Local names of `verify_signature` at the point where its body
evaluates `encode_defunct(text=message)`: the parameters and the name
`Account` bound by the function-local import. -/
def verifySignatureLocalScope : List String :=
  ["self", "message", "signature", "expected_address", "Account"]

/-- Python name resolution: a name evaluates to a binding when it is in
the local or the module scope, and raises `NameError` otherwise. -/
def resolveName (locals globals : List String) (n : String) : PyResult Unit :=
  if n ∈ locals ∨ n ∈ globals then .ok () else .error (.nameError n)

/-- Python `str.lower()` on the character content of the string
(ASCII case folding, which is all hex addresses need). -/
def pyLower (s : String) : String := String.mk (s.data.map Char.toLower)

/-- Embeds the try-block of `SignatureManager.verify_signature`: after
the local `from eth_account import Account`, it evaluates
`Account.recover_message(encode_defunct(text=message), signature=signature)`
— which first resolves the name `encode_defunct` — and compares the
recovered address with the expected one, case-insensitively. -/
def verify_signature_body (lib : EthLib)
    (message signature expected_address : String) : PyResult Bool := do
  resolveName verifySignatureLocalScope signerModuleScope "encode_defunct"
  let recovered ← lib.ecdsaRecover (encode_defunct message) signature
  pure (pyLower recovered == pyLower expected_address)

/-- Embeds the whole method `SignatureManager.verify_signature`: its
`except Exception` clause catches every modelled exception (all model
classes derive from `Exception`), logs, and returns `False`. -/
def verify_signature_method (lib : EthLib)
    (message signature expected_address : String) : PyResult Bool :=
  match verify_signature_body lib message signature expected_address with
  | .ok b => .ok b
  | .error _ => .ok false

/-- Observable raising: whether a piece of embedded Python code ends in
an uncaught exception. -/
def raised {α : Type} (r : PyResult α) : Bool :=
  match r with
  | .ok _ => false
  | .error _ => true

/-! ## Contract scanner (`agent/src/services/scanner.py`) -/

/-- Embeds `ContractScanner.get_contract_code`.  The underlying
blockchain access (`Web3.to_checksum_address` followed by
`w3.eth.get_code(...).hex()`) is abstracted as `fetch`.  The method
first consults `self._cache`; on a miss it fetches, stores the code in
the cache and returns it; if the fetch raises, the `except Exception`
clause logs and returns the empty string, leaving the cache unchanged.
The result is the pair (updated cache, returned code). -/
def get_contract_code (fetch : String → PyResult String)
    (cache : List (String × String)) (address : String) :
    List (String × String) × String :=
  match cache.find? (fun p => p.1 == address) with
  | some p => (cache, p.2)
  | none =>
      match fetch address with
      | .ok code => (cache ++ [(address, code)], code)
      | .error _ => (cache, "")

/-! ## MiniMax client (`agent/src/services/minimax.py`) -/

/-- JSON values, as produced by `response.json()` and `json.loads`. -/
inductive Json where
  | null
  | bool (b : Bool)
  | num (n : Int)
  | str (s : String)
  | arr (elems : List Json)
  | obj (fields : List (String × Json))
  deriving Repr

/-- A Python subscript key: a string or a non-negative integer index. -/
inductive PyKey where
  | str (s : String)
  | idx (n : Nat)
  deriving DecidableEq, Repr

/-- Python subscript `x[k]` on a parsed JSON value: dict lookup raises
`KeyError` for a missing or integer key, list indexing raises
`IndexError` out of range and `TypeError` for a string index, and
other values are not subscriptable. -/
def subscript (j : Json) (k : PyKey) : PyResult Json :=
  match j, k with
  | .obj fields, .str s =>
      match fields.find? (fun p => p.1 == s) with
      | some p => .ok p.2
      | none => .error (.keyError s)
  | .obj _, .idx n => .error (.keyError (toString n))
  | .arr elems, .idx n =>
      match elems.get? n with
      | some x => .ok x
      | none => .error .indexError
  | .arr _, .str _ => .error (.typeError "list indices must be integers")
  | _, _ => .error (.typeError "object is not subscriptable")

/-- Python `d.get(k, default)`: never raises on a dict, but raises
`AttributeError` when the receiver is not a dict. -/
def dictGetDefault (j : Json) (k : String) (dflt : Json) : PyResult Json :=
  match j with
  | .obj fields =>
      match fields.find? (fun p => p.1 == k) with
      | some p => .ok p.2
      | none => .ok dflt
  | _ => .error (.attributeError "get")

/-- Using a JSON value as a Python `str` (for `.strip()` and the fence
handling): raises `AttributeError` on non-strings. -/
def asString (j : Json) : PyResult String :=
  match j with
  | .str s => .ok s
  | _ => .error (.attributeError "strip")

/-- Python `for v in x`: lists yield their elements, dicts their keys,
strings their characters; other values are not iterable. -/
def pyIterate (j : Json) : PyResult (List Json) :=
  match j with
  | .arr elems => .ok elems
  | .obj fields => .ok (fields.map fun p => Json.str p.1)
  | .str s => .ok (s.toList.map fun c => Json.str (String.singleton c))
  | _ => .error (.typeError "object is not iterable")

/-- The markdown-fence stripping in `analyze_contract`:
`content.strip()`, then `content[7:-3]` when it starts with a json
fence, else `content[3:-3]` when it starts with a bare fence. -/
def stripAnalysisFences (content : String) : String :=
  let c := content.trim
  if c.startsWith "```json" then (c.drop 7).dropRight 3
  else if c.startsWith "```" then (c.drop 3).dropRight 3
  else c

/-- The dataclass `Vulnerability` of `minimax.py`.  Python stores the
values taken from the parsed JSON without conversion, so the fields
hold JSON values. -/
structure Vulnerability where
  type : Json
  severity : Json
  description : Json
  line_numbers : Json
  exploit_scenario : Json
  recommendation : Json
  deriving Repr

/-- The dataclass `ContractAnalysis` of `minimax.py`. -/
structure ContractAnalysis where
  vulnerabilities : List Vulnerability
  overall_risk_score : Json
  summary : Json
  contract_address : String
  deriving Repr

/-- Construction of one `Vulnerability` from a JSON element `v` via
`v.get(..., default)` calls. -/
def buildVulnerability (v : Json) : PyResult Vulnerability := do
  let t ← dictGetDefault v "type" (.str "unknown")
  let sev ← dictGetDefault v "severity" (.str "medium")
  let desc ← dictGetDefault v "description" (.str "")
  let ln ← dictGetDefault v "line_numbers" (.arr [])
  let ex ← dictGetDefault v "exploit_scenario" (.str "")
  let rcmd ← dictGetDefault v "recommendation" (.str "")
  pure { type := t, severity := sev, description := desc,
         line_numbers := ln, exploit_scenario := ex, recommendation := rcmd }

/-- The placeholder analysis returned by the except-branch of
`analyze_contract`. -/
def analysisPlaceholder : ContractAnalysis :=
  { vulnerabilities := []
    overall_risk_score := .num 0
    summary := .str "Analysis failed"
    contract_address := "" }

/-- Embeds the try-block of `MiniMaxClient.analyze_contract` from the
`_call` result on: extract
`response["choices"][0]["message"]["content"]`, strip fences,
`json.loads` (abstracted as `loads`), build the vulnerability list and
the analysis.  `response` is the outcome of `self._call(messages)`
(an HTTP error there is an exception flowing through this block). -/
def analyze_contract_parse (loads : String → PyResult Json)
    (response : PyResult Json) : PyResult ContractAnalysis := do
  let resp ← response
  let choices ← subscript resp (.str "choices")
  let first ← subscript choices (.idx 0)
  let msg ← subscript first (.str "message")
  let contentJ ← subscript msg (.str "content")
  let content0 ← asString contentJ
  let content := stripAnalysisFences content0
  let data ← loads content
  let vulnsJ ← dictGetDefault data "vulnerabilities" (.arr [])
  let vlist ← pyIterate vulnsJ
  let vulns ← vlist.mapM buildVulnerability
  let ors ← dictGetDefault data "overall_risk_score" (.num 0)
  let summ ← dictGetDefault data "summary" (.str "No issues found")
  pure { vulnerabilities := vulns, overall_risk_score := ors,
         summary := summ, contract_address := "" }

/-- The catch filter of `analyze_contract`:
`except (json.JSONDecodeError, KeyError)`. -/
def isJsonOrKeyError : PyExc → Bool
  | .jsonDecodeError _ => true
  | .keyError _ => true
  | _ => false

/-- Embeds the whole method `MiniMaxClient.analyze_contract`: JSON
decode errors and key errors yield the placeholder analysis, every
other exception propagates to the caller. -/
def analyze_contract (loads : String → PyResult Json)
    (response : PyResult Json) : PyResult ContractAnalysis :=
  match analyze_contract_parse loads response with
  | .ok a => .ok a
  | .error e => if isJsonOrKeyError e then .ok analysisPlaceholder else .error e

/-! ## Scanner job (`agent/src/jobs/scanner_job.py`) -/

/-- Outcome of one `_scan_cycle` call: normal return or a raised
exception. -/
inductive CycleOutcome where
  | ok
  | raises (e : PyExc)
  deriving Repr

/-- The mutable state of a `ScannerJob` relevant to its loop: the
cooperative `_running` flag. -/
structure ScannerJobState where
  running : Bool
  deriving DecidableEq, Repr

/-- Embeds `ScannerJob.stop`: sets `self._running = False`. -/
def scannerJobStop (s : ScannerJobState) : ScannerJobState :=
  { s with running := false }

/-- One iteration of the cooperative schedule: the outcome of the
iteration's `_scan_cycle`, and whether `ScannerJob.stop` ran at one of
the iteration's await points (inside the cycle or during the
`asyncio.sleep`), so that the flag is false at the next `while`
check. -/
structure IterationEvent where
  outcome : CycleOutcome
  stopDuringIteration : Bool

/-- Embeds the `while self._running` loop of `ScannerJob.run` over a
finite schedule of iteration events.  Each iteration runs
`_scan_cycle` inside `try/except Exception` (so its outcome never
escapes), then sleeps; `stop` during the iteration makes the next
`while` check see a false flag.  The result is the number of scan
cycles performed, paired with `true` when the loop exited normally and
`false` when the schedule was exhausted with the loop still live. -/
def scannerRunLoop : ScannerJobState → List IterationEvent → Nat × Bool
  | ⟨false⟩, _ => (0, true)
  | ⟨true⟩, [] => (0, false)
  | ⟨true⟩, ev :: rest =>
      let s1 : ScannerJobState :=
        if ev.stopDuringIteration then scannerJobStop ⟨true⟩ else ⟨true⟩
      let r := scannerRunLoop s1 rest
      (r.1 + 1, r.2)

/-- Embeds `ScannerJob.run`: it sets `self._running = True` on entry
and then enters the loop. -/
def scannerJobRun (events : List IterationEvent) : Nat × Bool :=
  scannerRunLoop ⟨true⟩ events

/-! ## Database service (`agent/src/services/database.py`) -/

/-- A row of the `scans` table. -/
structure ScanRow where
  rowid : Nat
  scan_id : String
  contract_address : String
  chain_id : Int
  status : String
  risk_score : Rat
  vulnerability_count : Int
  result_data : Option String
  created_at : String
  deriving DecidableEq, Repr

/-- A row of the `bounties` table. -/
structure BountyRow where
  rowid : Nat
  bounty_id : Int
  contract_address : Option String
  amount_wei : Int
  status : String
  created_at : String
  claimed_at : Option String
  deriving DecidableEq, Repr

/-- The single row (`id = 1`) of the `stats` table. -/
structure StatsRow where
  contracts_scanned : Int
  vulnerabilities_found : Int
  bounties_earned : Rat
  gigs_completed : Int
  updated_at : String
  deriving DecidableEq, Repr

/-- SQLite database state: the three tables, with the AUTOINCREMENT
counters of `scans.id` and `bounties.id`. -/
structure DB where
  scans : List ScanRow
  scansNextId : Nat
  bounties : List BountyRow
  bountiesNextId : Nat
  stats : StatsRow
  deriving DecidableEq, Repr

/-- A DDL/DML statement executed by `DatabaseService._init_db`. -/
inductive InitStmt where
  | createTableIfNotExists (name : String) (columns : List String)
  | insertOrIgnoreStatsRow
  deriving DecidableEq, Repr

/-- The statements `_init_db` executes, in order, with the column
names of each `CREATE TABLE IF NOT EXISTS`. -/
def initDbStatements : List InitStmt :=
  [ .createTableIfNotExists "scans"
      ["id", "scan_id", "contract_address", "chain_id", "status",
       "risk_score", "vulnerability_count", "result_data", "created_at"],
    .createTableIfNotExists "bounties"
      ["id", "bounty_id", "contract_address", "amount_wei", "status",
       "created_at", "claimed_at"],
    .createTableIfNotExists "stats"
      ["id", "contracts_scanned", "vulnerabilities_found",
       "bounties_earned", "gigs_completed", "updated_at"],
    .insertOrIgnoreStatsRow ]

/-- The names of the tables `_init_db` creates. -/
def createdTableNames : List String :=
  initDbStatements.filterMap fun s =>
    match s with
    | .createTableIfNotExists n _ => some n
    | _ => none

/-- The stats row inserted by `INSERT OR IGNORE INTO stats (id) VALUES (1)`
into a fresh database: all counters at their defaults. -/
def initialStats (now : String) : StatsRow :=
  { contracts_scanned := 0
    vulnerabilities_found := 0
    bounties_earned := 0
    gigs_completed := 0
    updated_at := now }

/-- A fresh database right after `_init_db`. -/
def initDb (now : String) : DB :=
  { scans := []
    scansNextId := 1
    bounties := []
    bountiesNextId := 1
    stats := initialStats now }

/-- Embeds `DatabaseService._increment_stat("contracts_scanned")`:
`UPDATE stats SET contracts_scanned = contracts_scanned + 1,
updated_at = CURRENT_TIMESTAMP WHERE id = 1`. -/
def increment_stat_contracts_scanned (now : String) (db : DB) : DB :=
  { db with stats :=
      { db.stats with
          contracts_scanned := db.stats.contracts_scanned + 1
          updated_at := now } }

/-- Embeds `DatabaseService.save_scan`: an
`INSERT OR REPLACE INTO scans` keyed by the UNIQUE column `scan_id`
(the conflicting row, if any, is deleted and the new row inserted
under a fresh AUTOINCREMENT id), followed by
`self._increment_stat("contracts_scanned")`.  Returns the new state
and `cursor.lastrowid`. -/
def save_scan (now : String) (db : DB) (scan_id contract_address : String)
    (chain_id : Int) (status : String) (risk_score : Rat)
    (vulnerability_count : Int) (result_data : Option String) : DB × Nat :=
  let kept := db.scans.filter fun r => r.scan_id ≠ scan_id
  let row : ScanRow :=
    { rowid := db.scansNextId
      scan_id := scan_id
      contract_address := contract_address
      chain_id := chain_id
      status := status
      risk_score := risk_score
      vulnerability_count := vulnerability_count
      result_data := result_data
      created_at := now }
  let db1 : DB := { db with scans := kept ++ [row], scansNextId := db.scansNextId + 1 }
  (increment_stat_contracts_scanned now db1, db.scansNextId)

/-- Embeds `DatabaseService.save_bounty`: a plain
`INSERT INTO bounties` — the `bounty_id` column carries no UNIQUE
constraint, so nothing is replaced.  Returns the new state and
`cursor.lastrowid`. -/
def save_bounty (now : String) (db : DB) (bounty_id : Int)
    (contract_address : Option String) (amount_wei : Int)
    (status : String) : DB × Nat :=
  let row : BountyRow :=
    { rowid := db.bountiesNextId
      bounty_id := bounty_id
      contract_address := contract_address
      amount_wei := amount_wei
      status := status
      created_at := now
      claimed_at := none }
  ({ db with bounties := db.bounties ++ [row],
             bountiesNextId := db.bountiesNextId + 1 },
   db.bountiesNextId)

/-- Embeds `DatabaseService.claim_bounty`:
`UPDATE bounties SET claimed_at = CURRENT_TIMESTAMP WHERE bounty_id = ?`,
returning the new state and `cursor.rowcount > 0` (SQLite counts every
row matched by the WHERE clause). -/
def claim_bounty (now : String) (db : DB) (bounty_id : Int) : DB × Bool :=
  let updated := db.bounties.map fun r =>
    if r.bounty_id = bounty_id then { r with claimed_at := some now } else r
  let matched := (db.bounties.filter fun r => r.bounty_id = bounty_id).length
  ({ db with bounties := updated }, decide (0 < matched))

/-- The dict returned by `DatabaseService.get_stats`. -/
structure StatsReport where
  contracts_scanned : Int
  vulnerabilities_found : Int
  bounties_earned : Int
  gigs_completed : Int
  deriving DecidableEq, Repr

/-- Embeds `DatabaseService.get_stats`.  The method fetches the stats
row (`SELECT * FROM stats WHERE id = 1`) but never reads it: the
returned dict is computed from `COUNT(*) FROM scans`,
`SUM(vulnerability_count) FROM scans` (with `or 0` turning the NULL of
an empty table into 0; the plain list sum is already 0 there),
`COUNT(*) FROM bounties WHERE claimed_at IS NOT NULL`, and the literal
0 for `gigs_completed`. -/
def get_stats (db : DB) : StatsReport :=
  { contracts_scanned := (db.scans.length : Int)
    vulnerabilities_found := (db.scans.map fun r => r.vulnerability_count).sum
    bounties_earned := ((db.bounties.filter fun r => r.claimed_at.isSome).length : Int)
    gigs_completed := 0 }

/-- Embeds `DatabaseService.increment_vulnerabilities`:
`UPDATE stats SET vulnerabilities_found = vulnerabilities_found + ?`
on the single stats row. -/
def increment_vulnerabilities (now : String) (db : DB) (count : Int) : DB :=
  { db with stats :=
      { db.stats with
          vulnerabilities_found := db.stats.vulnerabilities_found + count
          updated_at := now } }

/-- A call to one of the mutating `DatabaseService` operations. -/
inductive DbOp where
  | saveScan (now scan_id contract_address : String) (chain_id : Int)
      (status : String) (risk_score : Rat) (vulnerability_count : Int)
      (result_data : Option String)
  | saveBounty (now : String) (bounty_id : Int)
      (contract_address : Option String) (amount_wei : Int) (status : String)
  | claimBounty (now : String) (bounty_id : Int)
  | incrementVulnerabilities (now : String) (count : Int)

/-- Applies one operation to the database state. -/
def applyOp (db : DB) : DbOp → DB
  | .saveScan now sid ca cid st rs vc rd =>
      (save_scan now db sid ca cid st rs vc rd).1
  | .saveBounty now bid ca aw st => (save_bounty now db bid ca aw st).1
  | .claimBounty now bid => (claim_bounty now db bid).1
  | .incrementVulnerabilities now c => increment_vulnerabilities now db c

/-- Runs a sequence of operations from a starting state. -/
def runOps (db : DB) (ops : List DbOp) : DB := ops.foldl applyOp db

/-- At most one `scans` row per `scan_id` value. -/
def scansUniquePerId (db : DB) : Prop :=
  ∀ sid : String, (db.scans.filter fun r => r.scan_id = sid).length ≤ 1

/-! ## Concrete instances used by closed statements -/

/-- A concrete `EthLib` whose recovery always yields the address
`0xAAAA`; used to instantiate closed statements. -/
def constRecoverLib : EthLib :=
  { addressOfKey := fun _ => "0xAgent"
    ecdsaSign := fun _ _ => "0xSig"
    ecdsaRecover := fun _ _ => .ok "0xAAAA"
    keccakText := fun _ => "0xHash" }

/-- A configuration with no private key set. -/
def noKeyConfig : SignerConfig := { private_key := none }

/-- A fresh database after one `increment_vulnerabilities(5)` call. -/
def c3Db : DB := increment_vulnerabilities "t1" (initDb "t0") 5

/-- A fresh database after two `save_scan` calls with the same
`scan_id`. -/
def c3DoubleSaveDb : DB :=
  (save_scan "t2"
    (save_scan "t1" (initDb "t0") "scan-1" "0xabc" 10143 "queued" 0 0 none).1
    "scan-1" "0xabc" 10143 "completed" 0 0 none).1

/-- A fresh database after two `save_bounty` calls with the same
`bounty_id` 1. -/
def c4TwoBounties : DB :=
  (save_bounty "t2"
    (save_bounty "t1" (initDb "t0") 1 none 0 "created").1
    1 none 0 "created").1

/-- A fresh database holding one bounty with `bounty_id` 7. -/
def c9Db : DB := (save_bounty "t1" (initDb "t0") 7 none 100 "created").1

/-! ## Helper lemmas -/

/-- The name `encode_defunct` is bound neither in the local scope of
`verify_signature` nor at module level of `signer.py`, so evaluating it
raises `NameError`. -/
theorem encode_defunct_unbound_in_verify :
    resolveName verifySignatureLocalScope signerModuleScope "encode_defunct"
      = .error (.nameError "encode_defunct") := by
  rfl

/-- The `encode_structured_data` call in `sign_message` raises: its
argument dict lacks the required key `domain`. -/
theorem encode_structured_call_raises :
    encode_structured_data signMessageTypedDataKeys
      = .error (.validationError "domain") := by
  rfl

/-- The try-block of `verify_signature` always raises the `NameError`
on `encode_defunct` before any recovery is attempted. -/
theorem verify_body_raises (lib : EthLib) (m s a : String) :
    verify_signature_body lib m s a = .error (.nameError "encode_defunct") := rfl

/-- The method `verify_signature` returns `False` on every input: the
`NameError` is caught by the broad except and mapped to `False`. -/
theorem verify_method_always_false (lib : EthLib) (m s a : String) :
    verify_signature_method lib m s a = .ok false := rfl

/-- Full characterisation of `sign_message`: it always raises —
`ValueError` when no non-empty private key is configured, otherwise
the typed-data validation error from the stray
`encode_structured_data` call.  In particular the outcome depends only
on the configuration, never on the message. -/
theorem sign_message_outcome (lib : EthLib) (cfg : SignerConfig) (m : String) :
    sign_message lib cfg m =
      .error (match cfg.private_key with
        | none => .valueError "Private key not configured"
        | some k =>
            if k = "" then .valueError "Private key not configured"
            else .validationError "domain") := by
  obtain ⟨pk⟩ := cfg
  cases pk with
  | none => rfl
  | some k =>
      by_cases hk : k = ""
      · subst hk; rfl
      · have hga : get_account ⟨some k⟩ = .ok k := by
          simp only [get_account, if_neg hk]
        show sign_message lib ⟨some k⟩ m = .error (if k = "" then
            .valueError "Private key not configured" else .validationError "domain")
        rw [if_neg hk]
        unfold sign_message
        rw [hga]
        rfl

/-- `sign_message` never returns: every call ends in a raised
exception propagated to the caller. -/
theorem sign_message_always_raises (lib : EthLib) (cfg : SignerConfig)
    (m : String) : raised (sign_message lib cfg m) = true := by
  rw [sign_message_outcome]
  rfl

/-! ## Claim theorems -/

/-- Claim C1 (code bug evidence): the sign/verify round trip is broken
on every input.  `sign_message` never produces a signature (it raises
before signing, due to the stray `encode_structured_data` call on
incomplete typed data), and `verify_signature` returns `False` for
every message, signature and address (the `NameError` on
`encode_defunct` is swallowed by the broad except), so
`verify(m, sign(m, k), address(k)) == true` holds for no message and
key, contrary to the claim and to the repository's own signer tests. -/
theorem C1_sign_verify_roundtrip_broken (lib : EthLib) (cfg : SignerConfig)
    (m s a : String) :
    raised (sign_message lib cfg m) = true
    ∧ verify_signature_method lib m s a = .ok false :=
  ⟨sign_message_always_raises lib cfg m, verify_method_always_false lib m s a⟩

/-- Claim C2 (confirmed): whenever the address recovered from the
signature over the EIP-191 encoding of the message differs
(case-insensitively) from the claimed address, `verify_signature`
returns `False`.  The property holds degenerately: the method returns
`False` on every input. -/
theorem C2_verify_rejects_address_mismatch (lib : EthLib) (m s a : String)
    (_h : ∀ r : String, lib.ecdsaRecover (encode_defunct m) s = .ok r →
          pyLower r ≠ pyLower a) :
    verify_signature_method lib m s a = .ok false :=
  verify_method_always_false lib m s a

/-- Claim C2 witness: a concrete instance where the recovered address
`0xAAAA` differs from the claimed address `0xBBBB`. -/
theorem C2_verify_rejects_witness :
    verify_signature_method constRecoverLib "hello" "0xSig" "0xBBBB" = .ok false :=
  C2_verify_rejects_address_mismatch constRecoverLib "hello" "0xSig" "0xBBBB"
    (fun r hr => by
      have hr2 : (Except.ok "0xAAAA" : PyResult String) = .ok r := hr
      injection hr2 with h2
      subst h2
      decide)

/-- Claim C8 (confirmed): `verify_signature` is total — for every
input triple the method returns a boolean and never propagates an
exception; every internal exception (here the `NameError` on
`encode_defunct`, caught by the broad `except Exception`) results in
the return value `False`. -/
theorem C8_verify_signature_total (lib : EthLib) (m s a : String) :
    verify_signature_method lib m s a = .ok false :=
  verify_method_always_false lib m s a

/-- Claim C10 (code bug evidence): the outcome of `sign_message` is a
function of the configuration alone — two calls with the same key and
message (indeed any message) give the identical outcome — but that
outcome is always a raised exception, never a `SignedMessage`, contrary
to the claim and to `test_sign_message_returns_signed_message`. -/
theorem C10_sign_message_deterministic_outcome (lib : EthLib)
    (cfg : SignerConfig) (m : String) :
    sign_message lib cfg m =
      .error (match cfg.private_key with
        | none => .valueError "Private key not configured"
        | some k =>
            if k = "" then .valueError "Private key not configured"
            else .validationError "domain") :=
  sign_message_outcome lib cfg m

/-- Claim C5 counterexample: signing does not follow the
catch-log-return-placeholder pattern — at a concrete input the
exception is re-raised to the caller of `sign_message`. -/
theorem C5_sign_reraises_counterexample :
    sign_message constRecoverLib noKeyConfig "Test message"
      = .error (.valueError "Private key not configured") := rfl

/-- Claim C5 as amended: fetching contract code catches a failing
underlying call and returns the empty-string placeholder with the
cache unchanged; the analysis parser catches JSON decode errors and
key errors and returns the placeholder analysis; signing, by contrast,
catches, logs and re-raises, so every `sign_message` call propagates
an exception. -/
theorem C5_error_handling_amended :
    (∀ (fetch : String → PyResult String) (cache : List (String × String))
        (address : String) (e : PyExc),
        cache.find? (fun p => p.1 == address) = none →
        fetch address = .error e →
        get_contract_code fetch cache address = (cache, ""))
    ∧ (∀ (loads : String → PyResult Json) (response : PyResult Json) (e : PyExc),
        analyze_contract_parse loads response = .error e →
        isJsonOrKeyError e = true →
        analyze_contract loads response = .ok analysisPlaceholder)
    ∧ (∀ (lib : EthLib) (cfg : SignerConfig) (m : String),
        raised (sign_message lib cfg m) = true) := by
  refine ⟨?_, ?_, sign_message_always_raises⟩
  · intro fetch cache address e hfind hfetch
    unfold get_contract_code
    rw [hfind, hfetch]
  · intro loads response e hparse he
    unfold analyze_contract
    rw [hparse]
    simp [he]

/-- Claim C5 witness: concrete failing fetch and a concrete response
with no `choices` key. -/
theorem C5_error_handling_witness :
    get_contract_code (fun _ => .error (.web3Error "rpc down")) [] "0x01"
      = ([], "")
    ∧ analyze_contract (fun _ => .error (.jsonDecodeError "bad"))
        (.ok (Json.obj [])) = .ok analysisPlaceholder := by
  constructor
  · exact C5_error_handling_amended.1 (fun _ => .error (.web3Error "rpc down"))
      [] "0x01" (.web3Error "rpc down") rfl rfl
  · exact C5_error_handling_amended.2.1 (fun _ => .error (.jsonDecodeError "bad"))
      (.ok (Json.obj [])) (.keyError "choices") rfl rfl

/-- Claim C7 (confirmed): the control flow of `ScannerJob.run` depends
only on when `stop` flips the flag, never on scan-cycle outcomes —
an exception thrown by a cycle is caught and the loop continues — and
once `stop` runs during some iteration, that iteration is the last:
the loop performs exactly the cycles up to and including it and then
terminates. -/
theorem C7_scanner_loop_stop_semantics :
    (∀ (s : ScannerJobState) (evs evs2 : List IterationEvent),
        evs.map IterationEvent.stopDuringIteration
          = evs2.map IterationEvent.stopDuringIteration →
        scannerRunLoop s evs = scannerRunLoop s evs2)
    ∧ (∀ (pre post : List IterationEvent) (ev : IterationEvent),
        (∀ e ∈ pre, e.stopDuringIteration = false) →
        ev.stopDuringIteration = true →
        scannerJobRun (pre ++ ev :: post) = (pre.length + 1, true)) := by
  constructor
  · intro s evs
    induction evs generalizing s with
    | nil =>
        intro evs2 h
        cases evs2 with
        | nil => rfl
        | cons b bs => simp at h
    | cons a as ih =>
        intro evs2 h
        cases evs2 with
        | nil => simp at h
        | cons b bs =>
            simp only [List.map_cons, List.cons.injEq] at h
            obtain ⟨h1, h2⟩ := h
            obtain ⟨running⟩ := s
            cases running with
            | false => rfl
            | true =>
                simp only [scannerRunLoop]
                rw [h1, ih _ bs h2]
  · intro pre post ev hpre hev
    induction pre with
    | nil =>
        simp only [List.nil_append, List.length_nil]
        unfold scannerJobRun
        simp only [scannerRunLoop, hev, if_pos, scannerJobStop]
    | cons p ps ih =>
        have hp : p.stopDuringIteration = false := hpre p (by simp)
        have hps : ∀ e ∈ ps, e.stopDuringIteration = false := by
          intro e he
          exact hpre e (by simp [he])
        have ihr := ih hps
        unfold scannerJobRun at ihr ⊢
        simp only [List.cons_append, scannerRunLoop, hp, List.length_cons]
        have ihr2 : scannerRunLoop ⟨true⟩ (ps.append (ev :: post))
            = (ps.length + 1, true) := ihr
        rw [show (if false = true then scannerJobStop ⟨true⟩ else ⟨true⟩)
              = (⟨true⟩ : ScannerJobState) from rfl]
        rw [ihr2]

/-- Claim C7 witness: a first iteration whose cycle raises (the loop
continues) and a second during which `stop` runs — exactly two cycles
execute and the loop terminates. -/
theorem C7_scanner_loop_witness :
    scannerJobRun
      [{ outcome := .raises (.web3Error "boom"), stopDuringIteration := false },
       { outcome := .ok, stopDuringIteration := true }] = (2, true) := by
  have h := C7_scanner_loop_stop_semantics.2
      [{ outcome := .raises (.web3Error "boom"), stopDuringIteration := false }]
      [] { outcome := .ok, stopDuringIteration := true }
      (by intro e he; simp at he; rw [he]) rfl
  simpa using h

/-- Filtering for a `scan_id` after having kept only the rows with a
different `scan_id` leaves nothing. -/
theorem filter_ne_then_eq_nil (l : List ScanRow) (sid : String) :
    ((l.filter fun r => r.scan_id ≠ sid).filter fun r => r.scan_id = sid) = [] := by
  induction l with
  | nil => rfl
  | cons a l ih =>
      by_cases hx : a.scan_id = sid
      · simp [List.filter_cons, hx, ih]
      · simp [List.filter_cons, hx, ih]

/-- After a `save_scan`, the rows carrying the saved `scan_id` are
exactly the freshly inserted row: `INSERT OR REPLACE` keyed by the
UNIQUE `scan_id` column replaces any earlier row. -/
theorem save_scan_rows_with_id (now : String) (db : DB) (sid ca : String)
    (cid : Int) (st : String) (rs : Rat) (vc : Int) (rd : Option String) :
    ((save_scan now db sid ca cid st rs vc rd).1.scans.filter
        fun r => r.scan_id = sid)
      = [{ rowid := db.scansNextId, scan_id := sid, contract_address := ca,
           chain_id := cid, status := st, risk_score := rs,
           vulnerability_count := vc, result_data := rd, created_at := now }] := by
  have hscans : (save_scan now db sid ca cid st rs vc rd).1.scans
      = (db.scans.filter fun r => r.scan_id ≠ sid)
        ++ [{ rowid := db.scansNextId, scan_id := sid, contract_address := ca,
              chain_id := cid, status := st, risk_score := rs,
              vulnerability_count := vc, result_data := rd,
              created_at := now }] := rfl
  rw [hscans, List.filter_append, filter_ne_then_eq_nil]
  simp [List.filter_cons]

/-- A one-row list contributes nothing to a filter for a different
`scan_id`. -/
theorem filter_singleton_of_ne (row : ScanRow) (sid2 : String)
    (h : row.scan_id ≠ sid2) :
    ([row].filter fun r => r.scan_id = sid2) = [] := by
  simp [List.filter_cons, h]

/-- Every `DatabaseService` operation preserves uniqueness of
`scan_id` over the `scans` table. -/
theorem scansUnique_applyOp (db : DB) (hdb : scansUniquePerId db) (op : DbOp) :
    scansUniquePerId (applyOp db op) := by
  cases op with
  | saveScan now sid ca cid st rs vc rd =>
      intro sid2
      have hscans : (applyOp db (.saveScan now sid ca cid st rs vc rd)).scans
          = (db.scans.filter fun r => r.scan_id ≠ sid)
            ++ [{ rowid := db.scansNextId, scan_id := sid,
                  contract_address := ca, chain_id := cid, status := st,
                  risk_score := rs, vulnerability_count := vc,
                  result_data := rd, created_at := now }] := rfl
      by_cases hs : sid2 = sid
      · rw [hs]
        have h2 : (applyOp db (.saveScan now sid ca cid st rs vc rd)).scans
            = (save_scan now db sid ca cid st rs vc rd).1.scans := rfl
        rw [h2, save_scan_rows_with_id]
        simp
      · have hrow := filter_singleton_of_ne { rowid := db.scansNextId, scan_id := sid, contract_address := ca, chain_id := cid, status := st, risk_score := rs, vulnerability_count := vc, result_data := rd, created_at := now } sid2 (fun hcontra => hs hcontra.symm)
        rw [hscans, List.filter_append, hrow, List.append_nil]
        calc ((db.scans.filter fun r => r.scan_id ≠ sid).filter
                fun r => r.scan_id = sid2).length
            ≤ (db.scans.filter fun r => r.scan_id = sid2).length :=
              ((List.filter_sublist db.scans).filter _).length_le
          _ ≤ 1 := hdb sid2
  | saveBounty now bid ca aw st => exact hdb
  | claimBounty now bid => exact hdb
  | incrementVulnerabilities now c => exact hdb

/-- Uniqueness of `scan_id` is an invariant of every operation
sequence. -/
theorem scansUnique_runOps (db : DB) (hdb : scansUniquePerId db)
    (ops : List DbOp) : scansUniquePerId (runOps db ops) := by
  induction ops generalizing db with
  | nil => exact hdb
  | cons op ops ih => exact ih _ (scansUnique_applyOp db hdb op)

/-- Claim C6 counterexample: `_init_db` does not create exactly one
table. -/
theorem C6_single_table_counterexample :
    decide (createdTableNames.length = 1) = false := by rfl

/-- Claim C6 as amended: `_init_db` creates exactly three tables —
`scans`, `bounties` and `stats`. -/
theorem C6_three_tables_created :
    createdTableNames = ["scans", "bounties", "stats"] := rfl

/-- Claim C3 (code bug evidence): `save_scan` does increment the
`contracts_scanned` counter of the stats row by one, but `get_stats`
does not report the counters: on a fresh database,
`increment_vulnerabilities(5)` leaves the stats-row counter at 5 while
`get_stats` reports 0 (contradicting `test_increment_vulnerabilities`),
and two `save_scan` calls with the same `scan_id` leave the counter at
2 while `get_stats` reports the table count 1. -/
theorem C3_get_stats_ignores_counters :
    (∀ (now : String) (db : DB) (sid ca : String) (cid : Int) (st : String)
        (rs : Rat) (vc : Int) (rd : Option String),
        (save_scan now db sid ca cid st rs vc rd).1.stats.contracts_scanned
          = db.stats.contracts_scanned + 1)
    ∧ c3Db.stats.vulnerabilities_found = 5
    ∧ (get_stats c3Db).vulnerabilities_found = 0
    ∧ c3DoubleSaveDb.stats.contracts_scanned = 2
    ∧ (get_stats c3DoubleSaveDb).contracts_scanned = 1 :=
  ⟨fun _ _ _ _ _ _ _ _ _ => rfl, rfl, rfl, rfl, rfl⟩

/-- Claim C4 counterexample: after two `save_bounty` calls with
`bounty_id` 1 the bounties table does not hold at most one row with
that identifier. -/
theorem C4_bounty_uniqueness_counterexample :
    decide ((c4TwoBounties.bounties.filter fun r => r.bounty_id = 1).length ≤ 1)
      = false := by rfl

/-- Claim C4 as amended: after any operation sequence on a fresh
database the `scans` table holds at most one row per `scan_id`, a
repeated `save_scan` with the same identifier replacing the earlier
record; `save_bounty`, however, always appends a fresh row — no
uniqueness of `bounty_id` is enforced, so repeated saves accumulate
duplicates. -/
theorem C4_upsert_amended :
    (∀ (t : String) (ops : List DbOp), scansUniquePerId (runOps (initDb t) ops))
    ∧ (∀ (now : String) (db : DB) (sid ca : String) (cid : Int) (st : String)
        (rs : Rat) (vc : Int) (rd : Option String),
        ((save_scan now db sid ca cid st rs vc rd).1.scans.filter
            fun r => r.scan_id = sid)
          = [{ rowid := db.scansNextId, scan_id := sid, contract_address := ca,
               chain_id := cid, status := st, risk_score := rs,
               vulnerability_count := vc, result_data := rd,
               created_at := now }])
    ∧ (∀ (now : String) (db : DB) (bid : Int) (ca : Option String)
        (aw : Int) (st : String),
        (save_bounty now db bid ca aw st).1.bounties
          = db.bounties
            ++ [{ rowid := db.bountiesNextId, bounty_id := bid,
                  contract_address := ca, amount_wei := aw, status := st,
                  created_at := now, claimed_at := none }]) := by
  refine ⟨?_, save_scan_rows_with_id, fun _ _ _ _ _ _ => rfl⟩
  intro t ops
  apply scansUnique_runOps
  intro sid
  simp [initDb]

/-- Indexing into a mapped bounty list. -/
theorem get_map_bounty (f : BountyRow → BountyRow) (l : List BountyRow)
    (i : Nat) (h : i < l.length) (h2 : i < (l.map f).length) :
    (l.map f).get ⟨i, h2⟩ = f (l.get ⟨i, h⟩) := by
  induction l generalizing i with
  | nil => cases h
  | cons a l ih =>
      cases i with
      | zero => rfl
      | succ j =>
          exact ih j (Nat.lt_of_succ_lt_succ h) (Nat.lt_of_succ_lt_succ h2)

/-- Claim C9 (confirmed): `claim_bounty` leaves the scans table, the
stats row and the id counters untouched; it preserves the number of
bounty rows; row by row it changes nothing but the `claimed_at` field,
and that only on rows whose `bounty_id` matches, where it becomes the
current timestamp; and it returns `true` exactly when at least one row
matched. -/
theorem C9_claim_bounty_frame (db : DB) (bid : Int) (now : String) :
    (claim_bounty now db bid).1.scans = db.scans
    ∧ (claim_bounty now db bid).1.scansNextId = db.scansNextId
    ∧ (claim_bounty now db bid).1.stats = db.stats
    ∧ (claim_bounty now db bid).1.bountiesNextId = db.bountiesNextId
    ∧ (claim_bounty now db bid).1.bounties.length = db.bounties.length
    ∧ (∀ (i : Nat) (h : i < db.bounties.length),
        ∃ h2 : i < (claim_bounty now db bid).1.bounties.length,
          ((claim_bounty now db bid).1.bounties.get ⟨i, h2⟩).rowid
              = (db.bounties.get ⟨i, h⟩).rowid
          ∧ ((claim_bounty now db bid).1.bounties.get ⟨i, h2⟩).bounty_id
              = (db.bounties.get ⟨i, h⟩).bounty_id
          ∧ ((claim_bounty now db bid).1.bounties.get ⟨i, h2⟩).contract_address
              = (db.bounties.get ⟨i, h⟩).contract_address
          ∧ ((claim_bounty now db bid).1.bounties.get ⟨i, h2⟩).amount_wei
              = (db.bounties.get ⟨i, h⟩).amount_wei
          ∧ ((claim_bounty now db bid).1.bounties.get ⟨i, h2⟩).status
              = (db.bounties.get ⟨i, h⟩).status
          ∧ ((claim_bounty now db bid).1.bounties.get ⟨i, h2⟩).created_at
              = (db.bounties.get ⟨i, h⟩).created_at
          ∧ ((db.bounties.get ⟨i, h⟩).bounty_id ≠ bid →
              ((claim_bounty now db bid).1.bounties.get ⟨i, h2⟩).claimed_at
                = (db.bounties.get ⟨i, h⟩).claimed_at)
          ∧ ((db.bounties.get ⟨i, h⟩).bounty_id = bid →
              ((claim_bounty now db bid).1.bounties.get ⟨i, h2⟩).claimed_at
                = some now))
    ∧ ((claim_bounty now db bid).2 = true
        ↔ ∃ r ∈ db.bounties, r.bounty_id = bid) := by
  refine ⟨rfl, rfl, rfl, rfl, ?_, ?_, ?_⟩
  · show (db.bounties.map _).length = db.bounties.length
    exact List.length_map _ _
  · intro i h
    have h2 : i < (claim_bounty now db bid).1.bounties.length := by
      show i < (db.bounties.map _).length
      rw [List.length_map]
      exact h
    refine ⟨h2, ?_⟩
    have hg : (claim_bounty now db bid).1.bounties.get ⟨i, h2⟩
        = if (db.bounties.get ⟨i, h⟩).bounty_id = bid
          then { db.bounties.get ⟨i, h⟩ with claimed_at := some now }
          else db.bounties.get ⟨i, h⟩ :=
      get_map_bounty
        (fun r => if r.bounty_id = bid then { r with claimed_at := some now }
                  else r)
        db.bounties i h h2
    by_cases hb : (db.bounties.get ⟨i, h⟩).bounty_id = bid
    · rw [hg, if_pos hb]
      refine ⟨rfl, rfl, rfl, rfl, rfl, rfl, ?_, fun _ => rfl⟩
      intro hne
      exact absurd hb hne
    · rw [hg, if_neg hb]
      refine ⟨rfl, rfl, rfl, rfl, rfl, rfl, fun _ => rfl, ?_⟩
      intro heq
      exact absurd heq hb
  · show decide (0 < (db.bounties.filter fun r => r.bounty_id = bid).length)
        = true ↔ _
    rw [decide_eq_true_eq]
    constructor
    · intro hlen
      obtain ⟨r, hr⟩ := List.exists_mem_of_length_pos hlen
      rw [List.mem_filter] at hr
      exact ⟨r, hr.1, by simpa using hr.2⟩
    · rintro ⟨r, hr, hrb⟩
      have hmem : r ∈ db.bounties.filter fun x => x.bounty_id = bid := by
        rw [List.mem_filter]
        exact ⟨hr, by simpa using hrb⟩
      exact List.length_pos_of_mem hmem

/-- Claim C9 witness: a database with a single bounty of id 7 —
claiming it returns `true` and stamps `claimed_at`. -/
theorem C9_claim_bounty_witness :
    (claim_bounty "t2" c9Db 7).2 = true
    ∧ ((claim_bounty "t2" c9Db 7).1.bounties.get
        ⟨0, by decide⟩).claimed_at = some "t2" := by
  have h := C9_claim_bounty_frame c9Db 7 "t2"
  constructor
  · refine (h.2.2.2.2.2.2).mpr ?_
    refine ⟨{ rowid := 1, bounty_id := 7, contract_address := none,
              amount_wei := 100, status := "created", created_at := "t1",
              claimed_at := none }, ?_, ?_⟩
    · decide
    · decide
  · obtain ⟨h2, hf⟩ := h.2.2.2.2.2.1 0 (by decide)
    exact hf.2.2.2.2.2.2.2 (by decide)
